import Mathlib

/-!
Verification development for the Diagnostic Test Generator service
(`src/main.py`).

The service is a single HTTP glue path: request validation (pydantic
field bounds), lazy API-key lookup, one outbound completion call,
Markdown code-fence cleanup of the completion text, JSON decoding, and
assembly of a typed response.

Embedding conventions.
* Python `str` is modelled as `List Char`; `s.strip()`, `s.startswith`,
  `s.endswith`, `s[7:]`, `s[:-3]` become `pyStrip`, `List.isPrefixOf`,
  `List.isSuffixOf`, `List.drop 7`, `take (length - 3)`.
* The process environment is an `Option (List Char)`: `none` models an
  unset `OPENAI_API_KEY`, `some []` an empty one (both falsy in Python).
* The outbound completion call is an oracle argument of type
  `Except (List Char) (List Char)`: `.error msg` models any exception
  raised by the client call (network, auth, quota), `.ok text` the
  content of the first completion choice.  Each handler returns,
  besides its HTTP result, a `Bool` recording whether the outbound
  completion API was invoked while handling the request.
* `json.loads` is modelled by `json.loads` below, a fuel-based
  recursive-descent parser covering the fragment of JSON the service
  exercises (objects, arrays, strings with the common escapes, integer
  numbers, literals).  Fallible steps return `Option`/`Except`.
* HTTP errors are `(status, detail)` pairs; the `detail` strings follow
  the f-strings of `main.py`, with the library-generated suffixes
  (`str(e)` of a `JSONDecodeError`, `KeyError` or pydantic
  `ValidationError`) abstracted to fixed representative strings.
-/

/-- Whitespace characters stripped by Python `str.strip()` (ASCII part). -/
def pyIsSpace (c : Char) : Bool :=
  c = ' ' || c = '\t' || c = '\n' || c = '\r' || c = '\x0b' || c = '\x0c'

/-- Python `s.strip()`: remove leading and trailing whitespace. -/
def pyStrip (s : List Char) : List Char :=
  ((s.dropWhile pyIsSpace).reverse.dropWhile pyIsSpace).reverse

/-- Lines 129-132 of `main.py`: drop a leading three-backtick json marker
(7 characters) when present, then a leading bare three-backtick marker
(3 characters) when present. -/
def strip_leading (content : List Char) : List Char :=
  let c1 := if ("```json".toList).isPrefixOf content then content.drop 7 else content
  if ("```".toList).isPrefixOf c1 then c1.drop 3 else c1

/-- Lines 133-134 of `main.py`: drop a trailing three-backtick marker
(Python `content[:-3]`) when present. -/
def strip_trailing (content : List Char) : List Char :=
  if ("```".toList).isSuffixOf content then content.take (content.length - 3)
  else content

/-- Lines 126-135 of `main.py`: strip the raw completion text, remove
Markdown code-fence markers, and strip again. -/
def clean_content (raw : List Char) : List Char :=
  pyStrip (strip_trailing (strip_leading (pyStrip raw)))

/-- JSON values, as produced by `json.loads` (numbers restricted to the
integer fragment, the only one this service exercises). -/
inductive Json where
  | null : Json
  | bool : Bool → Json
  | num : Int → Json
  | str : List Char → Json
  | arr : List Json → Json
  | obj : List (List Char × Json) → Json

namespace json

/-- JSON insignificant whitespace. -/
def jsonWs (c : Char) : Bool :=
  c = ' ' || c = '\t' || c = '\n' || c = '\r'

/-- Skip insignificant whitespace. -/
def skipWs (s : List Char) : List Char := s.dropWhile jsonWs

/-- Decode a single-character escape sequence (the `\\u` form is outside
the modelled fragment). -/
def escChar (c : Char) : Option Char :=
  if c = '"' then some '"'
  else if c = '\\' then some '\\'
  else if c = '/' then some '/'
  else if c = 'n' then some '\n'
  else if c = 't' then some '\t'
  else if c = 'r' then some '\r'
  else if c = 'b' then some '\x08'
  else if c = 'f' then some '\x0c'
  else none

/-- Parse the body of a JSON string after the opening quote; return the
decoded characters and the input remaining after the closing quote. -/
def parseStringRest : List Char → Option (List Char × List Char)
  | [] => none
  | '"' :: rest => some ([], rest)
  | '\\' :: rest =>
    match rest with
    | [] => none
    | e :: rest2 =>
      match escChar e with
      | some c => (parseStringRest rest2).map (fun p => (c :: p.1, p.2))
      | none => none
  | c :: rest => (parseStringRest rest).map (fun p => (c :: p.1, p.2))

/-- Digits to a natural number. -/
def digitsToNat (ds : List Char) : Nat :=
  ds.foldl (fun a c => a * 10 + (c.toNat - '0'.toNat)) 0

/-- Parse an integer JSON number (fractions and exponents are outside the
modelled fragment). -/
def parseNumber (s : List Char) : Option (Json × List Char) :=
  let p := match s with
    | '-' :: t => (true, t)
    | _ => (false, s)
  let ds := p.2.takeWhile Char.isDigit
  let rest := p.2.dropWhile Char.isDigit
  if ds = [] then none
  else
    match rest with
    | '.' :: _ => none
    | 'e' :: _ => none
    | 'E' :: _ => none
    | _ =>
      some (Json.num (if p.1 then -(digitsToNat ds : Int) else (digitsToNat ds : Int)),
            rest)

mutual

/-- Parse one JSON value; returns the value and the remaining input. -/
def parseValue : Nat → List Char → Option (Json × List Char)
  | 0, _ => none
  | Nat.succ fuel, s =>
    match skipWs s with
    | [] => none
    | c :: rest =>
      if c = '"' then
        (parseStringRest rest).map (fun p => (Json.str p.1, p.2))
      else if c = '\x7b' then
        match skipWs rest with
        | '\x7d' :: r => some (Json.obj [], r)
        | s2 => parseMembers fuel s2 []
      else if c = '[' then
        match skipWs rest with
        | ']' :: r => some (Json.arr [], r)
        | s2 => parseElems fuel s2 []
      else if ("true".toList).isPrefixOf (c :: rest) then
        some (Json.bool true, (c :: rest).drop 4)
      else if ("false".toList).isPrefixOf (c :: rest) then
        some (Json.bool false, (c :: rest).drop 5)
      else if ("null".toList).isPrefixOf (c :: rest) then
        some (Json.null, (c :: rest).drop 4)
      else
        parseNumber (c :: rest)

/-- Parse the members of a JSON object after its opening brace, given the
members already read (in reverse). -/
def parseMembers : Nat → List Char → List (List Char × Json) →
    Option (Json × List Char)
  | 0, _, _ => none
  | Nat.succ fuel, s, acc =>
    match skipWs s with
    | '"' :: rest =>
      match parseStringRest rest with
      | none => none
      | some (key, rest2) =>
        match skipWs rest2 with
        | ':' :: rest3 =>
          match parseValue fuel rest3 with
          | none => none
          | some (v, rest4) =>
            match skipWs rest4 with
            | ',' :: rest5 => parseMembers fuel rest5 ((key, v) :: acc)
            | '\x7d' :: rest5 => some (Json.obj ((key, v) :: acc).reverse, rest5)
            | _ => none
        | _ => none
    | _ => none

/-- Parse the elements of a JSON array after its opening bracket, given
the elements already read (in reverse). -/
def parseElems : Nat → List Char → List Json → Option (Json × List Char)
  | 0, _, _ => none
  | Nat.succ fuel, s, acc =>
    match parseValue fuel s with
    | none => none
    | some (v, rest) =>
      match skipWs rest with
      | ',' :: rest2 => parseElems fuel rest2 (v :: acc)
      | ']' :: rest2 => some (Json.arr (v :: acc).reverse, rest2)
      | _ => none

end

/-- Model of Python `json.loads`: parse one JSON document and require
only whitespace to follow; `none` models a raised `JSONDecodeError`. -/
def loads (s : List Char) : Option Json :=
  match parseValue (2 * s.length + 4) s with
  | some (j, rest) => if skipWs rest = [] then some j else none
  | none => none

end json

/-- Python dict lookup on a decoded JSON object (`test_data["questions"]`);
`none` models the raised `KeyError`/`TypeError`.  Later duplicate keys
shadow earlier ones, as in a Python dict built by `json.loads`. -/
def dictGet (j : Json) (k : List Char) : Option Json :=
  match j with
  | Json.obj kvs => kvs.foldl (fun acc p => if p.1 = k then some p.2 else acc) none
  | _ => none

/-- Request model (`DiagnosticTestRequest` in `main.py`): the text fields
and the requested MCQ count. -/
structure DiagnosticTestRequest where
  course_name : List Char
  subject : List Char
  target_grade_level : List Char
  number_of_mcq : Int

/-- Response model `MCQOption`: an option letter and its text. -/
structure MCQOption where
  option : List Char
  text : List Char

/-- Response model `MCQQuestion`.  Note the source puts no length bound
on `options` (plain `List[MCQOption]`). -/
structure MCQQuestion where
  question_number : Int
  question : List Char
  options : List MCQOption
  correct_answer : List Char
  explanation : List Char

/-- Response model `DiagnosticTestResponse`. -/
structure DiagnosticTestResponse where
  course_name : List Char
  subject : List Char
  target_grade_level : List Char
  total_questions : Int
  questions : List MCQQuestion

/-- FastAPI `HTTPException`: a status code and a human-readable detail. -/
structure HTTPException where
  status_code : Nat
  detail : List Char

/-- Starlette renders `str(HTTPException)` as `"{status_code}: {detail}"`;
this is what the catch-all handler embeds into its message. -/
def strOfHTTPException (e : HTTPException) : List Char :=
  (Nat.repr e.status_code).toList ++ (": ".toList) ++ e.detail

/-- Pydantic validation of one decoded JSON value against `MCQOption`:
both fields must be present and be strings. -/
def validateMCQOption (j : Json) : Option MCQOption :=
  match j with
  | Json.obj kvs =>
    match dictGet (Json.obj kvs) ("option".toList),
          dictGet (Json.obj kvs) ("text".toList) with
    | some (Json.str o), some (Json.str t) => some ⟨o, t⟩
    | _, _ => none
  | _ => none

/-- Pydantic validation of one decoded JSON value against `MCQQuestion`:
every field present with the declared type; `options` may have any
length, exactly as `List[MCQOption]` in the source. -/
def validateMCQQuestion (j : Json) : Option MCQQuestion :=
  match j with
  | Json.obj kvs =>
    match dictGet (Json.obj kvs) ("question_number".toList),
          dictGet (Json.obj kvs) ("question".toList),
          dictGet (Json.obj kvs) ("options".toList),
          dictGet (Json.obj kvs) ("correct_answer".toList),
          dictGet (Json.obj kvs) ("explanation".toList) with
    | some (Json.num qn), some (Json.str q), some (Json.arr os),
      some (Json.str ca), some (Json.str ex) =>
      (os.mapM validateMCQOption).map (fun opts => ⟨qn, q, opts, ca, ex⟩)
    | _, _, _, _, _ => none
  | _ => none

/-- Pydantic validation of the decoded `questions` value: a list whose
elements each validate as `MCQQuestion`. -/
def validateQuestions (j : Json) : Option (List MCQQuestion) :=
  match j with
  | Json.arr xs => xs.mapM validateMCQQuestion
  | _ => none

/-- Pydantic boundary validation of `DiagnosticTestRequest`
(line 27 of `main.py`: `Field(..., ge=1, le=50)`); `none` models the
HTTP 422 rejection produced before the handler body runs. -/
def validate_request (course subject grade : List Char) (n : Int) :
    Option DiagnosticTestRequest :=
  if 1 ≤ n ∧ n ≤ 50 then some ⟨course, subject, grade, n⟩ else none

/-- Abstraction of the structured field-level detail FastAPI returns on a
validation failure of `number_of_mcq`. -/
def validation422Detail : List Char :=
  ("Input should be greater than or equal to 1 and less than or equal to 50").toList

/-- Lines 16-20 of `main.py`: resolve the API key from the environment;
a missing or empty key (both falsy) raises a 500 `HTTPException`. -/
def get_openai_client : Option (List Char) → Except HTTPException (List Char)
  | none => Except.error ⟨500, ("OpenAI API key not configured").toList⟩
  | some api_key =>
    if api_key = [] then
      Except.error ⟨500, ("OpenAI API key not configured").toList⟩
    else Except.ok api_key

/-- Representative `str(e)` of a `json.JSONDecodeError`. -/
def jsonDecodeErrorMsg : List Char := ("Expecting value").toList

/-- Representative `str(e)` of the `KeyError` / pydantic
`ValidationError` raised during response assembly. -/
def shapeErrorMsg : List Char :=
  ("validation error for DiagnosticTestResponse").toList

/-- Lines 69-154 of `main.py`: the body of `generate_diagnostic_test`,
for an already validated request.  `env` is the process environment,
`api` the oracle for the outbound completion call.  The second component
records whether the completion API was invoked.  An `HTTPException`
raised by `get_openai_client` inside the `try` block is caught by the
generic `except Exception` handler and re-wrapped, so its detail passes
through `strOfHTTPException`. -/
def generate_diagnostic_test (env : Option (List Char))
    (request : DiagnosticTestRequest)
    (api : Except (List Char) (List Char)) :
    Except HTTPException DiagnosticTestResponse × Bool :=
  match get_openai_client env with
  | Except.error e =>
    (Except.error ⟨500, ("Error generating test: ").toList ++ strOfHTTPException e⟩,
     false)
  | Except.ok _ =>
    match api with
    | Except.error msg =>
      (Except.error ⟨500, ("Error generating test: ").toList ++ msg⟩, true)
    | Except.ok raw =>
      match json.loads (clean_content raw) with
      | none =>
        (Except.error ⟨500, ("Failed to parse GPT response: ").toList ++
          jsonDecodeErrorMsg⟩, true)
      | some test_data =>
        match dictGet test_data ("questions".toList) with
        | none =>
          (Except.error ⟨500, ("Error generating test: ").toList ++ shapeErrorMsg⟩,
           true)
        | some qj =>
          match validateQuestions qj with
          | none =>
            (Except.error ⟨500, ("Error generating test: ").toList ++ shapeErrorMsg⟩,
             true)
          | some qs =>
            (Except.ok ⟨request.course_name, request.subject,
              request.target_grade_level, request.number_of_mcq, qs⟩, true)

/-- The full `POST /generate-test` path: pydantic request validation at
the boundary, then the handler body. -/
def handle_generate_test (env : Option (List Char))
    (course subject grade : List Char) (n : Int)
    (api : Except (List Char) (List Char)) :
    Except HTTPException DiagnosticTestResponse × Bool :=
  match validate_request course subject grade n with
  | none => (Except.error ⟨422, validation422Detail⟩, false)
  | some request => generate_diagnostic_test env request api

/-- Body of the `GET /health` response. -/
structure HealthResponse where
  status : List Char
  openai_configured : Bool

/-- Lines 59-66 of `main.py`: the health check reads the environment and
reports `bool(api_key)`; the second component records whether the
completion API was invoked (it never is on this path). -/
def health_check (env : Option (List Char)) : HealthResponse × Bool :=
  (⟨("healthy").toList,
    match env with
    | none => false
    | some api_key => !api_key.isEmpty⟩,
   false)

set_option maxRecDepth 10000

/-- C4: the response cleaner, applied to the completion text made of a
leading three-backtick json fence, a newline, the object text, a newline
and a trailing three-backtick fence, produces exactly the object text:
the two fence markers are stripped and surrounding whitespace trimmed,
and nothing else changes. -/
theorem cleaner_strips_fences_exactly :
    clean_content (("```json\n" ++ "\x7b\"questions\":[]\x7d" ++ "\n```").toList) =
      ("\x7b\"questions\":[]\x7d").toList := rfl

/-- C5: cleanup is idempotent on already-clean JSON: the object text is
left unchanged, the fenced and unfenced variants parse to the same JSON
value, and applying the cleaner twice equals applying it once. -/
theorem cleaner_idempotent_on_clean_json :
    clean_content (("\x7b\"questions\": []\x7d").toList) =
        ("\x7b\"questions\": []\x7d").toList ∧
    json.loads (clean_content (("```json\n" ++ "\x7b\"questions\": []\x7d" ++ "\n```").toList)) =
        json.loads (clean_content (("\x7b\"questions\": []\x7d").toList)) ∧
    clean_content (clean_content (("\x7b\"questions\": []\x7d").toList)) =
        clean_content (("\x7b\"questions\": []\x7d").toList) :=
  ⟨rfl, rfl, rfl⟩

/-- C9: the health check always reports status healthy, reports
`openai_configured = false` exactly when the credential environment
variable is absent or empty, and makes no outbound call. -/
theorem health_check_reflects_configuration (env : Option (List Char)) :
    (health_check env).1.status = ("healthy").toList ∧
    ((health_check env).1.openai_configured = false ↔
      (env = none ∨ env = some [])) ∧
    (health_check env).2 = false := by
  refine ⟨rfl, ?_, rfl⟩
  cases env with
  | none => simp [health_check]
  | some api_key => simp [health_check, List.isEmpty_iff]

/-- C2: a request whose `number_of_mcq` lies outside `[1, 50]` is
rejected with the 422 validation error and the completion API is never
invoked. -/
theorem out_of_range_mcq_rejected_before_call (env : Option (List Char))
    (course subject grade : List Char) (n : Int)
    (api : Except (List Char) (List Char))
    (h : n < 1 ∨ 50 < n) :
    handle_generate_test env course subject grade n api =
      (Except.error ⟨422, validation422Detail⟩, false) := by
  unfold handle_generate_test validate_request
  rw [if_neg (fun hc => by rcases h with h | h <;> omega)]

/-- Witness for C2 at the two boundary inputs 0 and 51. -/
theorem out_of_range_mcq_rejected_before_call_witness :
    handle_generate_test none [] [] [] 0 (Except.ok []) =
      (Except.error ⟨422, validation422Detail⟩, false) ∧
    handle_generate_test none [] [] [] 51 (Except.ok []) =
      (Except.error ⟨422, validation422Detail⟩, false) :=
  ⟨out_of_range_mcq_rejected_before_call none [] [] [] 0 (Except.ok [])
      (Or.inl (by decide)),
   out_of_range_mcq_rejected_before_call none [] [] [] 51 (Except.ok [])
      (Or.inr (by decide))⟩

/-- C6: when the credential environment variable is missing, a valid
request fails with the fixed 500 message (the `HTTPException` raised by
`get_openai_client`, re-wrapped by the catch-all handler) and the
completion API is never invoked, whatever it would have returned. -/
theorem missing_key_fails_before_call (course subject grade : List Char)
    (n : Int) (api : Except (List Char) (List Char))
    (h1 : 1 ≤ n) (h2 : n ≤ 50) :
    handle_generate_test none course subject grade n api =
      (Except.error ⟨500,
        ("Error generating test: 500: OpenAI API key not configured").toList⟩,
       false) := by
  unfold handle_generate_test validate_request
  rw [if_pos ⟨h1, h2⟩]
  rfl

/-- Witness for C6 at a concrete valid request. -/
theorem missing_key_fails_before_call_witness :
    (1 : Int) ≤ 5 ∧ (5 : Int) ≤ 50 ∧
    handle_generate_test none (("c").toList) (("s").toList) (("g").toList) 5
        (Except.ok (("\x7b\"questions\": []\x7d").toList)) =
      (Except.error ⟨500,
        ("Error generating test: 500: OpenAI API key not configured").toList⟩,
       false) :=
  ⟨by decide, by decide,
   missing_key_fails_before_call (("c").toList) (("s").toList) (("g").toList) 5
     (Except.ok (("\x7b\"questions\": []\x7d").toList)) (by decide) (by decide)⟩

/-- Helper: a non-empty key resolves to a client. -/
theorem get_openai_client_ok (key : List Char) (hkey : key ≠ []) :
    get_openai_client (some key) = Except.ok key := by
  cases key with
  | nil => exact absurd rfl hkey
  | cons c t => rfl

/-- Helper: any successful pipeline run copies `number_of_mcq` into
`total_questions`. -/
theorem generate_ok_total (env : Option (List Char))
    (request : DiagnosticTestRequest) (api : Except (List Char) (List Char))
    (r : DiagnosticTestResponse) (b : Bool)
    (h : generate_diagnostic_test env request api = (Except.ok r, b)) :
    r.total_questions = request.number_of_mcq := by
  unfold generate_diagnostic_test at h
  repeat' split at h
  all_goals (try simp_all)
  all_goals (obtain ⟨h1, h2⟩ := h; subst h1; rfl)

/-- C1: for every valid request with `number_of_mcq = n` whose pipeline
succeeds, the response has `total_questions = n`, whatever the
completion oracle returned and hence whatever the length of the parsed
questions array is. -/
theorem total_questions_echoes_requested_count (env : Option (List Char))
    (course subject grade : List Char) (n : Int)
    (api : Except (List Char) (List Char))
    (r : DiagnosticTestResponse) (b : Bool)
    (h1 : 1 ≤ n) (h2 : n ≤ 50)
    (h : handle_generate_test env course subject grade n api = (Except.ok r, b)) :
    r.total_questions = n := by
  unfold handle_generate_test validate_request at h
  rw [if_pos ⟨h1, h2⟩] at h
  have h' : generate_diagnostic_test env ⟨course, subject, grade, n⟩ api =
      (Except.ok r, b) := h
  exact generate_ok_total env ⟨course, subject, grade, n⟩ api r b h'

/-- Witness for C1: a request for 5 questions answered with an empty
questions array still reports `total_questions = 5`. -/
theorem total_questions_echoes_requested_count_witness :
    (1 : Int) ≤ 5 ∧ (5 : Int) ≤ 50 ∧
    (⟨("c").toList, ("s").toList, ("g").toList, 5, []⟩ :
        DiagnosticTestResponse).total_questions = 5 :=
  ⟨by decide, by decide,
   total_questions_echoes_requested_count (some ['k'])
     (("c").toList) (("s").toList) (("g").toList) 5
     (Except.ok (("\x7b\"questions\": []\x7d").toList))
     ⟨("c").toList, ("s").toList, ("g").toList, 5, []⟩ true
     (by decide) (by decide) rfl⟩

/-- C3: completion text that does not clean up to valid JSON makes the
pipeline fail with the 500 parse-failure detail, whose prefix differs
from the generic upstream-error prefix, and no response is built. -/
theorem invalid_json_yields_parse_failure_500 (key : List Char)
    (request : DiagnosticTestRequest) (raw : List Char)
    (hkey : key ≠ [])
    (hparse : json.loads (clean_content raw) = none) :
    generate_diagnostic_test (some key) request (Except.ok raw) =
      (Except.error ⟨500, ("Failed to parse GPT response: ").toList ++
        jsonDecodeErrorMsg⟩, true) ∧
    (("Failed to parse").toList).isPrefixOf
      (("Failed to parse GPT response: ").toList ++ jsonDecodeErrorMsg) = true ∧
    (("Error generating test: ").toList).isPrefixOf
      (("Failed to parse GPT response: ").toList ++ jsonDecodeErrorMsg) = false := by
  refine ⟨?_, by decide, by decide⟩
  unfold generate_diagnostic_test
  rw [get_openai_client_ok key hkey]
  simp only [hparse]

/-- Witness for C3 on a refusal message that is not JSON. -/
theorem invalid_json_yields_parse_failure_500_witness :
    generate_diagnostic_test (some ['k'])
        ⟨("c").toList, ("s").toList, ("g").toList, 5⟩
        (Except.ok (("Sorry, I cannot help with that.").toList)) =
      (Except.error ⟨500, ("Failed to parse GPT response: ").toList ++
        jsonDecodeErrorMsg⟩, true) ∧
    (("Failed to parse").toList).isPrefixOf
      (("Failed to parse GPT response: ").toList ++ jsonDecodeErrorMsg) = true ∧
    (("Error generating test: ").toList).isPrefixOf
      (("Failed to parse GPT response: ").toList ++ jsonDecodeErrorMsg) = false :=
  invalid_json_yields_parse_failure_500 ['k']
    ⟨("c").toList, ("s").toList, ("g").toList, 5⟩
    (("Sorry, I cannot help with that.").toList) (by decide) rfl

/-- Completion text whose single question has only three options and is
otherwise well-formed. -/
def threeOptionCompletionText : List Char :=
  ("\x7b\"questions\": [\x7b\"question_number\": 1, \"question\": \"Q1\", " ++
   "\"options\": [\x7b\"option\": \"A\", \"text\": \"a\"\x7d, " ++
   "\x7b\"option\": \"B\", \"text\": \"b\"\x7d, " ++
   "\x7b\"option\": \"C\", \"text\": \"c\"\x7d], " ++
   "\"correct_answer\": \"A\", \"explanation\": \"E\"\x7d]\x7d").toList

/-- The questions decoded from `threeOptionCompletionText`. -/
def threeOptionQuestions : List MCQQuestion :=
  [⟨1, ("Q1").toList,
    [⟨("A").toList, ("a").toList⟩, ⟨("B").toList, ("b").toList⟩,
     ⟨("C").toList, ("c").toList⟩],
    ("A").toList, ("E").toList⟩]

/-- Counterexample to C7: a parsed question whose options list has three
entries (wrong option count) is accepted, and a successful
`TestResponse` is returned; the claimed shape-mismatch failure does not
happen. -/
theorem wrong_option_count_accepted :
    generate_diagnostic_test (some ['k'])
        ⟨("c").toList, ("s").toList, ("g").toList, 3⟩
        (Except.ok threeOptionCompletionText) =
      (Except.ok ⟨("c").toList, ("s").toList, ("g").toList, 3,
        threeOptionQuestions⟩, true) ∧
    threeOptionQuestions.map (fun q => q.options.length) = [3] :=
  ⟨rfl, rfl⟩

/-- A decoded question object whose `explanation` field is missing. -/
def questionMissingField : Json :=
  Json.obj [(("question_number").toList, Json.num 1),
            (("question").toList, Json.str (("Q").toList)),
            (("options").toList, Json.arr []),
            (("correct_answer").toList, Json.str (("A").toList))]

/-- A decoded question object whose `question_number` field is a string
rather than an integer. -/
def questionWrongType : Json :=
  Json.obj [(("question_number").toList, Json.str (("one").toList)),
            (("question").toList, Json.str (("Q").toList)),
            (("options").toList, Json.arr []),
            (("correct_answer").toList, Json.str (("A").toList)),
            (("explanation").toList, Json.str (("E").toList))]

/-- C7 amended: a parsed questions array with a missing field or a
wrongly typed field fails response assembly with the 500
shape-mismatch error and no successful response is returned; the
option count, however, is not validated (see the counterexample). -/
theorem shape_mismatch_fails_without_count_check (key : List Char)
    (request : DiagnosticTestRequest) (raw : List Char) (j qj : Json)
    (hkey : key ≠ [])
    (hload : json.loads (clean_content raw) = some j)
    (hq : dictGet j (("questions").toList) = some qj)
    (hbad : validateQuestions qj = none) :
    generate_diagnostic_test (some key) request (Except.ok raw) =
      (Except.error ⟨500, ("Error generating test: ").toList ++ shapeErrorMsg⟩,
       true) ∧
    validateMCQQuestion questionMissingField = none ∧
    validateMCQQuestion questionWrongType = none := by
  refine ⟨?_, rfl, rfl⟩
  unfold generate_diagnostic_test
  rw [get_openai_client_ok key hkey]
  simp only [hload, hq, hbad]

/-- Witness for the amended C7 on completion text whose questions array
holds one empty object. -/
theorem shape_mismatch_fails_without_count_check_witness :
    generate_diagnostic_test (some ['k'])
        ⟨("c").toList, ("s").toList, ("g").toList, 2⟩
        (Except.ok (("\x7b\"questions\": [\x7b\x7d]\x7d").toList)) =
      (Except.error ⟨500, ("Error generating test: ").toList ++ shapeErrorMsg⟩,
       true) ∧
    validateMCQQuestion questionMissingField = none ∧
    validateMCQQuestion questionWrongType = none :=
  shape_mismatch_fails_without_count_check ['k']
    ⟨("c").toList, ("s").toList, ("g").toList, 2⟩
    (("\x7b\"questions\": [\x7b\x7d]\x7d").toList)
    (Json.obj [(("questions").toList, Json.arr [Json.obj []])])
    (Json.arr [Json.obj []])
    (by decide) rfl rfl rfl

/-- Completion text whose single question has three options, a repeated
option letter, and a correct answer absent from the options. -/
def unvalidatedCompletionText : List Char :=
  ("\x7b\"questions\": [\x7b\"question_number\": 1, \"question\": \"Q\", " ++
   "\"options\": [\x7b\"option\": \"A\", \"text\": \"a\"\x7d, " ++
   "\x7b\"option\": \"A\", \"text\": \"b\"\x7d, " ++
   "\x7b\"option\": \"B\", \"text\": \"c\"\x7d], " ++
   "\"correct_answer\": \"Z\", \"explanation\": \"E\"\x7d]\x7d").toList

/-- The single question decoded from `unvalidatedCompletionText`. -/
def unvalidatedQuestion : MCQQuestion :=
  ⟨1, ("Q").toList,
   [⟨("A").toList, ("a").toList⟩, ⟨("A").toList, ("b").toList⟩,
    ⟨("B").toList, ("c").toList⟩],
   ("Z").toList, ("E").toList⟩

/-- Counterexample to C8: the pipeline successfully returns a response
whose question has three options, a duplicated option letter, and a
`correct_answer` matching none of its options. -/
theorem success_without_option_invariants :
    generate_diagnostic_test (some ['k'])
        ⟨("c").toList, ("s").toList, ("g").toList, 1⟩
        (Except.ok unvalidatedCompletionText) =
      (Except.ok ⟨("c").toList, ("s").toList, ("g").toList, 1,
        [unvalidatedQuestion]⟩, true) ∧
    unvalidatedQuestion.options.length = 3 ∧
    unvalidatedQuestion.options.map MCQOption.option =
      [("A").toList, ("A").toList, ("B").toList] ∧
    (unvalidatedQuestion.options.map MCQOption.option).contains
      unvalidatedQuestion.correct_answer = false :=
  ⟨rfl, rfl, rfl, rfl⟩

/-- C8 amended: the questions of every successful response are exactly
the element-wise type-validated decoding of the cleaned completion
text; field presence and types are enforced, but no option count,
letter uniqueness, or answer-membership constraint is. -/
theorem successful_questions_are_validated_shape (env : Option (List Char))
    (request : DiagnosticTestRequest) (raw : List Char)
    (r : DiagnosticTestResponse) (b : Bool)
    (h : generate_diagnostic_test env request (Except.ok raw) = (Except.ok r, b)) :
    ((json.loads (clean_content raw)).bind
        (fun j => dictGet j (("questions").toList))).bind validateQuestions =
      some r.questions := by
  unfold generate_diagnostic_test at h
  repeat' split at h
  all_goals (try simp_all)
  all_goals (obtain ⟨h1, h2⟩ := h; subst h1; rfl)

/-- Witness for the amended C8 at an empty questions array. -/
theorem successful_questions_are_validated_shape_witness :
    ((json.loads (clean_content (("\x7b\"questions\": []\x7d").toList))).bind
        (fun j => dictGet j (("questions").toList))).bind validateQuestions =
      some (⟨("c").toList, ("s").toList, ("g").toList, 5, []⟩ :
        DiagnosticTestResponse).questions :=
  successful_questions_are_validated_shape (some ['k'])
    ⟨("c").toList, ("s").toList, ("g").toList, 5⟩
    (("\x7b\"questions\": []\x7d").toList)
    ⟨("c").toList, ("s").toList, ("g").toList, 5, []⟩ true rfl

/-- C10: the cleaner strips each fence marker independently: a leading
json marker is removed from any text regardless of what follows (here
with no second leading marker), a leading bare marker is removed from
any text not continuing with the json word, and a trailing marker is
removed from any text whatsoever — neither strip requires the other
marker to be present. -/
theorem fence_markers_stripped_independently :
    (∀ s : List Char, ((("```").toList).isPrefixOf s) = false →
        strip_leading (("```json").toList ++ s) = s) ∧
    (∀ s : List Char, ((("json").toList).isPrefixOf s) = false →
        strip_leading (("```").toList ++ s) = s) ∧
    (∀ s : List Char, strip_trailing (s ++ ("```").toList) = s) := by
  refine ⟨fun s hs => ?_, fun s hs => ?_, fun s => ?_⟩
  · have h1 : (("```json").toList).isPrefixOf ((("```json").toList) ++ s) = true :=
      List.isPrefixOf_iff_prefix.mpr (List.prefix_append _ _)
    have h2 : ((("```json").toList) ++ s).drop 7 = s := by
      simp
    simp only [strip_leading]
    rw [h1, if_pos rfl, h2, hs, if_neg Bool.false_ne_true]
  · have h1 : (("```json").toList).isPrefixOf ((("```").toList) ++ s) = false := by
      rw [Bool.eq_false_iff]
      intro hcon
      rw [show (("```json").toList) = (("```").toList) ++ (("json").toList) from rfl,
        List.isPrefixOf_iff_prefix, List.prefix_append_right_inj,
        ← List.isPrefixOf_iff_prefix, hs] at hcon
      cases hcon
    have h2 : (("```").toList).isPrefixOf ((("```").toList) ++ s) = true :=
      List.isPrefixOf_iff_prefix.mpr (List.prefix_append _ _)
    have h3 : ((("```").toList) ++ s).drop 3 = s := by
      simp
    simp only [strip_leading]
    rw [h1, if_neg Bool.false_ne_true, h2, if_pos rfl, h3]
  · have h1 : (("```").toList).isSuffixOf (s ++ ("```").toList) = true := by
      rw [List.isSuffixOf_iff_suffix]
      exact List.suffix_append _ _
    have h2 : (s ++ ("```").toList).length - 3 = s.length := by simp
    simp only [strip_trailing]
    rw [h1, if_pos rfl, h2]
    exact List.take_left s (("```").toList)

/-- Witness for C10: each strip happens on a concrete text carrying only
the one marker concerned. -/
theorem fence_markers_stripped_independently_witness :
    strip_leading (("```json").toList ++ ("x").toList) = ("x").toList ∧
    strip_leading (("```").toList ++ ("x").toList) = ("x").toList ∧
    strip_trailing (("x").toList ++ ("```").toList) = ("x").toList :=
  ⟨fence_markers_stripped_independently.1 (("x").toList) (by decide),
   fence_markers_stripped_independently.2.1 (("x").toList) (by decide),
   fence_markers_stripped_independently.2.2 (("x").toList)⟩
